import Mathlib

/-!
Shallow embedding of the multi-agent analysis pipeline
(`server/agents/orchestrator.ts`, `server/agents/document-agent.ts`,
`server/agents/strategy-agent.ts`, `server/agents/financial-agent.ts`,
`server/anthropic.ts`) together with proofs of the specification claims
about structured-output recovery, the result normalizer
(`convertCrewResultToAnalysis`), the pipeline coordinator (`runAgentCrew`)
and the retry policy of the generation-client wrappers.

Conventions of the embedding:
* JavaScript strings are Lean `String`s (code points instead of UTF-16
  units; all concrete inputs used in witnesses are ASCII, where the two
  coincide).
* JavaScript numbers on the paths the claims touch are integers; they are
  modelled as `Int`.  `x || d` on numbers is `jsOrInt` (0 and absence are
  falsy), on strings `jsOrStr` ("" and absence are falsy).
* `JSON.parse` is modelled by the strict parser `parseJson` below; a parse
  exception is `none`.  The `as T` casts in the source do not validate, so
  a successful parse returns the raw `Json` value.
* `async`/`Promise` code is modelled with `Except`: a rejected promise is
  `.error`.
-/

namespace Cognition

/-- Opening brace character (written by code to keep literal braces out of
string and character literals). -/
def obrace : Char := Char.ofNat 123

/-- Closing brace character. -/
def cbrace : Char := Char.ofNat 125

/-- JavaScript `String.prototype.trim` (whitespace as recognised by
`Char.isWhitespace`; identical to the JS notion on ASCII). -/
def jsTrim (s : String) : String :=
  String.mk (((s.toList.dropWhile Char.isWhitespace).reverse.dropWhile Char.isWhitespace).reverse)

/-- JavaScript `String.prototype.startsWith`. -/
def strStarts (s pat : String) : Bool := pat.toList.isPrefixOf s.toList

/-- JavaScript `String.prototype.endsWith`. -/
def strEnds (s pat : String) : Bool := pat.toList.reverse.isPrefixOf s.toList.reverse

/-- JavaScript `String.prototype.slice(n)` : drop the first `n` characters. -/
def jsDrop (s : String) (n : Nat) : String := String.mk (s.toList.drop n)

/-- JavaScript `String.prototype.slice(0, -n)` : drop the last `n` characters. -/
def jsDropRight (s : String) (n : Nat) : String :=
  String.mk (s.toList.take (s.toList.length - n))

/-- JavaScript `a || d` for an optional numeric field: absent values and the
falsy number `0` both fall back to the default. -/
def jsOrInt (x : Option Int) (d : Int) : Int :=
  match x with
  | none => d
  | some v => if v = 0 then d else v

/-- JavaScript `a || d` for an optional string field: absent values and the
falsy empty string both fall back to the default. -/
def jsOrStr (x : Option String) (d : String) : String :=
  match x with
  | none => d
  | some s => if s = "" then d else s

/-- `Number.prototype.toLocaleString` as used for dollar amounts.  Digit
grouping is not modelled; no claim depends on the rendered text. -/
def jsLocaleString (n : Int) : String := toString n

/-- Whether `pat` occurs as a contiguous substring, JavaScript
`String.prototype.includes`. -/
def jsIncludes (s pat : String) : Bool :=
  (s.toList.tails.any fun t => pat.toList.isPrefixOf t)

/-- JavaScript `String.prototype.toLowerCase` (ASCII letters only, which is
all the rate-limit markers need). -/
def jsToLower (s : String) : String := String.mk (s.toList.map Char.toLower)

/-! ### A strict JSON value and `JSON.parse`

`JSON.parse` either returns a value or throws a `SyntaxError`; the model
returns `Option Json`.  Numbers keep their source lexeme: no claim depends
on numeric semantics, only on which texts parse. -/

/-- A parsed JSON document. -/
inductive Json where
  | null
  | bool (b : Bool)
  | num (lexeme : String)
  | str (s : String)
  | arr (elements : List Json)
  | obj (members : List (String × Json))

/-- JSON insignificant whitespace. -/
def jsonWs (c : Char) : Bool := c == ' ' || c == '\t' || c == '\n' || c == '\r'

/-- Skip insignificant whitespace. -/
def skipWs : List Char → List Char
  | [] => []
  | c :: cs => if jsonWs c then skipWs cs else c :: cs

/-- Longest digit run at the front of the input. -/
def spanDigits (l : List Char) : List Char × List Char := l.span Char.isDigit

/-- Hexadecimal digit value, for `\uXXXX` escapes. -/
def hexDigit (c : Char) : Option Nat :=
  if c.isDigit then some (c.toNat - 48)
  else if 'a' ≤ c && c ≤ 'f' then some (c.toNat - 97 + 10)
  else if 'A' ≤ c && c ≤ 'F' then some (c.toNat - 65 + 10)
  else none

/-- Single-character JSON string escapes. -/
def escChar (c : Char) : Option Char :=
  if c = '"' then some '"'
  else if c = '\\' then some '\\'
  else if c = '/' then some '/'
  else if c = 'b' then some (Char.ofNat 8)
  else if c = 'f' then some (Char.ofNat 12)
  else if c = 'n' then some '\n'
  else if c = 'r' then some '\r'
  else if c = 't' then some '\t'
  else none

/-- Body of a JSON string after the opening quote.  Strict mode: raw
control characters are rejected, exactly the escapes of RFC 8259 are
accepted. -/
def parseStrBody (acc : List Char) : List Char → Option (String × List Char)
  | [] => none
  | c :: cs =>
    if c = '"' then some (String.mk acc.reverse, cs)
    else if c = '\\' then
      match cs with
      | [] => none
      | e :: cs2 =>
        if e = 'u' then
          match cs2 with
          | a :: b :: c3 :: d :: cs3 =>
            match hexDigit a, hexDigit b, hexDigit c3, hexDigit d with
            | some va, some vb, some vc, some vd =>
                parseStrBody (Char.ofNat (((va * 16 + vb) * 16 + vc) * 16 + vd) :: acc) cs3
            | _, _, _, _ => none
          | _ => none
        else
          match escChar e with
          | some ch => parseStrBody (ch :: acc) cs2
          | none => none
    else if c.toNat < 32 then none
    else parseStrBody (c :: acc) cs

/-- A JSON number token, returned as its lexeme.  Grammar of RFC 8259:
optional minus, `0` or a nonzero-led digit run, optional fraction,
optional exponent. -/
def parseNumTok (l : List Char) : Option (String × List Char) :=
  let (sign, l1) : List Char × List Char :=
    match l with
    | '-' :: r => (['-'], r)
    | _ => ([], l)
  match l1 with
  | [] => none
  | c :: _ =>
    if ¬ c.isDigit then none
    else
      let (intPart, l2) := spanDigits l1
      if intPart.length > 1 && intPart.headD '0' = '0' then none
      else
        let (fracPart, l3) : List Char × List Char :=
          match l2 with
          | '.' :: r =>
            let (ds, r2) := spanDigits r
            if ds.isEmpty then ([], l2) else ('.' :: ds, r2)
          | _ => ([], l2)
        if l3 ≠ l2 ∨ fracPart.isEmpty then
          match l3 with
          | 'e' :: r | 'E' :: r =>
            let (es, r1) : List Char × List Char :=
              match r with
              | '+' :: r2 => (['e', '+'], r2)
              | '-' :: r2 => (['e', '-'], r2)
              | _ => (['e'], r)
            let (ds, r2) := spanDigits r1
            if ds.isEmpty then none
            else some (String.mk (sign ++ intPart ++ fracPart ++ es ++ ds), r2)
          | _ => some (String.mk (sign ++ intPart ++ fracPart), l3)
        else none

mutual

/-- One JSON value, by fuel-bounded recursive descent. -/
def parseVal : Nat → List Char → Option (Json × List Char)
  | 0, _ => none
  | Nat.succ fuel, cs =>
    match skipWs cs with
    | 'n' :: 'u' :: 'l' :: 'l' :: r => some (.null, r)
    | 't' :: 'r' :: 'u' :: 'e' :: r => some (.bool true, r)
    | 'f' :: 'a' :: 'l' :: 's' :: 'e' :: r => some (.bool false, r)
    | '"' :: r =>
      match parseStrBody [] r with
      | some (s, r2) => some (.str s, r2)
      | none => none
    | '[' :: r =>
      (match skipWs r with
       | ']' :: r2 => some (.arr [], r2)
       | r2 => match parseElements fuel r2 with
               | some (es, r3) => some (.arr es, r3)
               | none => none)
    | c :: r =>
      if c = obrace then
        match skipWs r with
        | [] => none
        | c2 :: r2 =>
          if c2 = cbrace then some (.obj [], r2)
          else match parseMembers fuel (c2 :: r2) with
               | some (ms, r3) => some (.obj ms, r3)
               | none => none
      else
        match parseNumTok (c :: r) with
        | some (tok, r2) => some (.num tok, r2)
        | none => none
    | [] => none

/-- One-or-more comma-separated array elements, consuming the closing
bracket. -/
def parseElements : Nat → List Char → Option (List Json × List Char)
  | 0, _ => none
  | Nat.succ fuel, cs =>
    match parseVal fuel cs with
    | none => none
    | some (v, r) =>
      match skipWs r with
      | ',' :: r2 =>
        (match parseElements fuel r2 with
         | some (vs, r3) => some (v :: vs, r3)
         | none => none)
      | ']' :: r2 => some ([v], r2)
      | _ => none

/-- One-or-more comma-separated object members, consuming the closing
brace. -/
def parseMembers : Nat → List Char → Option (List (String × Json) × List Char)
  | 0, _ => none
  | Nat.succ fuel, cs =>
    match skipWs cs with
    | '"' :: r =>
      (match parseStrBody [] r with
       | none => none
       | some (key, r1) =>
         match skipWs r1 with
         | ':' :: r2 =>
           (match parseVal fuel r2 with
            | none => none
            | some (v, r3) =>
              match skipWs r3 with
              | ',' :: r4 =>
                (match parseMembers fuel r4 with
                 | some (ms, r5) => some ((key, v) :: ms, r5)
                 | none => none)
              | c :: r4 => if c = cbrace then some ([(key, v)], r4) else none
              | [] => none)
         | _ => none)
    | _ => none

end

/-- The model of `JSON.parse`: a single document with only whitespace
around it, or failure. -/
def parseJson (s : String) : Option Json :=
  let cs := s.toList
  match parseVal (2 * cs.length + 8) cs with
  | some (j, rest) => if skipWs rest = [] then some j else none
  | none => none

end Cognition

namespace Cognition

/-! ### Structured-output recovery

Every agent trims the generated text, strips a leading triple-backtick
fence (with or without a `json` tag) and a trailing fence, then attempts
`JSON.parse`; on failure it retries on the substring from the first
opening brace to the last closing brace; on failure the document,
strategy and financial agents return a hard-coded fallback object while
`synthesizeResults` lets the parse exception propagate. -/

/-- Fence stripping common to all four generator-consuming call sites. -/
def stripFences (s : String) : String :=
  let r0 := jsTrim s
  let r1 := if strStarts r0 "```json" then jsDrop r0 7 else r0
  let r2 := if strStarts r1 "```" then jsDrop r1 3 else r1
  let r3 := if strEnds r2 "```" then jsDropRight r2 3 else r2
  jsTrim r3

/-- Index of the first opening brace, `String.prototype.indexOf`. -/
def firstBraceIdx (s : String) : Option Nat :=
  s.toList.findIdx? (· = obrace)

/-- Index of the last closing brace, `String.prototype.lastIndexOf`. -/
def lastBraceIdx (s : String) : Option Nat :=
  match s.toList.reverse.findIdx? (· = cbrace) with
  | some i => some (s.toList.length - 1 - i)
  | none => none

/-- The repair tier: `response.slice(jsonStart, jsonEnd + 1)` guarded by
`jsonStart !== -1 && jsonEnd > jsonStart`. -/
def extractBraces (s : String) : Option String :=
  match firstBraceIdx s, lastBraceIdx s with
  | some i, some j =>
    if j > i then some (String.mk ((s.toList.drop i).take (j + 1 - i))) else none
  | _, _ => none

/-- The two parse tiers shared by the document, strategy and financial
agents: strict parse of the cleaned text, then strict parse of the
brace-extracted substring.  `none` means both tiers failed and the
component fallback is used. -/
def recoverJson (raw : String) : Option Json :=
  match parseJson (stripFences raw) with
  | some j => some j
  | none =>
    match extractBraces (stripFences raw) with
    | some sub => parseJson sub
    | none => none

/-- Fallback object of `documentIntelligenceAgent.execute` (the
"minimal valid response with error note"); it interpolates the document
length and name from the context. -/
def documentAgentFallback (content : String) (documentName : Option String) : Json :=
  .obj [
    ("agentName", .str "Document Intelligence Agent"),
    ("confidence", .num "0.5"),
    ("reasoning", .str "Document analyzed but response parsing encountered issues. Key insights extracted manually."),
    ("insights", .arr [.str "Document was processed but some details may be incomplete due to parsing issues"]),
    ("structuredData", .obj [
      ("keyFindings", .arr [
        .str ("Document provided for analysis - content length: " ++ toString content.length ++ " characters"),
        .str ("Document name: " ++ jsOrStr documentName "Uploaded Document")]),
      ("relevantMetrics", .arr []),
      ("strategicImplications", .arr [.str "Full document analysis should be reviewed manually"]),
      ("riskFactors", .arr [.str "Automated extraction incomplete - manual review recommended"]),
      ("opportunities", .arr [.str "Document contains information relevant to AI transformation strategy"])])]

/-- Fallback object of `businessStrategyAgent.execute`. -/
def businessStrategyFallback : Json :=
  .obj [
    ("agentName", .str "Business Strategy Agent"),
    ("confidence", .num "0.5"),
    ("reasoning", .str "Strategic analysis completed but response parsing encountered issues."),
    ("insights", .arr [.str "Analysis completed - manual review recommended"]),
    ("structuredData", .obj [
      ("cognitiveNodes", .arr [.obj [
        ("name", .str "Manual Process Review"),
        ("description", .str "Core business processes requiring cognitive effort"),
        ("cognitiveLoad", .str "high"),
        ("dataReadiness", .str "medium"),
        ("agenticPattern", .str "Orchestrator"),
        ("automationPotential", .num "60")]]),
      ("epochFilters", .obj [
        ("empathy", .arr []), ("physicality", .arr []),
        ("opinion", .arr []), ("leadership", .arr [])]),
      ("jaggedFrontier", .arr [.str "Process automation opportunities identified"])])]

/-- Fallback object of `financialAnalystAgent.execute`. -/
def financialAnalystFallback : Json :=
  .obj [
    ("agentName", .str "Financial Analyst Agent"),
    ("confidence", .num "0.5"),
    ("reasoning", .str "Financial analysis completed but response parsing encountered issues."),
    ("insights", .arr [.str "Financial projections calculated - manual review recommended"]),
    ("structuredData", .obj [
      ("useCases", .arr [.obj [
        ("title", .str "Process Automation Initiative"),
        ("description", .str "AI-powered automation of manual processes"),
        ("horizon", .str "H1"),
        ("currentCost", .num "500000"),
        ("projectedSavings", .num "200000"),
        ("implementationCost", .num "100000"),
        ("trustTaxPercent", .num "25"),
        ("lcoai", .num "5"),
        ("paybackMonths", .num "6")]]),
      ("totalCurrentCost", .num "500000"),
      ("totalProjectedSavings", .num "200000"),
      ("overallROI", .num "100"),
      ("trustTaxBreakdown", .obj [
        ("humanReview", .num "20"), ("errorCorrection", .num "10"),
        ("complianceOverhead", .num "5"), ("trainingMaintenance", .num "5")])])]

/-- Recovery path of the document-intelligence agent: both parse tiers,
then the context-dependent fallback. -/
def documentAgentRecover (content : String) (documentName : Option String)
    (raw : String) : Json :=
  match recoverJson raw with
  | some j => j
  | none => documentAgentFallback content documentName

/-- Recovery path of the business-strategy agent. -/
def businessStrategyRecover (raw : String) : Json :=
  match recoverJson raw with
  | some j => j
  | none => businessStrategyFallback

/-- Recovery path of the financial-analyst agent. -/
def financialAnalystRecover (raw : String) : Json :=
  match recoverJson raw with
  | some j => j
  | none => financialAnalystFallback

/-- Parse step of `synthesizeResults`: fence stripping followed by one
strict `JSON.parse` whose exception propagates (no repair tier, no
fallback object). -/
def synthesisParse (raw : String) : Except String Json :=
  match parseJson (stripFences raw) with
  | some j => .ok j
  | none => .error "SyntaxError: unexpected token in JSON"

/-- A balanced-brace check (used only to state the brace-balance
hypothesis of the recovery claims). -/
def braceDepthOk : List Char → Int → Bool
  | [], d => d = 0
  | c :: cs, d =>
    if c = obrace then braceDepthOk cs (d + 1)
    else if c = cbrace then (d > 0 && braceDepthOk cs (d - 1))
    else braceDepthOk cs d

/-- Whether the curly braces of `s` are balanced. -/
def braceBalanced (s : String) : Bool := braceDepthOk s.toList 0

/-- C1: on raw generator text in which neither parse tier finds a JSON
document, the document-intelligence, business-strategy and
financial-analyst recovery paths return their fixed component fallbacks
(totally, without raising), while the synthesis stage's parse propagates
the failure as an error. -/
theorem C1_recovery_defaults (content : String) (documentName : Option String)
    (raw : String) (h : recoverJson raw = none) :
    documentAgentRecover content documentName raw
        = documentAgentFallback content documentName ∧
    businessStrategyRecover raw = businessStrategyFallback ∧
    financialAnalystRecover raw = financialAnalystFallback ∧
    ∃ msg, synthesisParse raw = .error msg := by
  have hs : parseJson (stripFences raw) = none := by
    cases hp : parseJson (stripFences raw) with
    | none => rfl
    | some j => simp [recoverJson, hp] at h
  refine ⟨?_, ?_, ?_, ?_⟩
  · simp [documentAgentRecover, h]
  · simp [businessStrategyRecover, h]
  · simp [financialAnalystRecover, h]
  · exact ⟨"SyntaxError: unexpected token in JSON", by simp [synthesisParse, hs]⟩

/-- Witness for C1: the text "no json content here" defeats both parse
tiers, and the theorem applies. -/
theorem C1_recovery_defaults_witness :
    recoverJson "no json content here" = none ∧
    (documentAgentRecover "doc body" (some "report.pdf") "no json content here"
        = documentAgentFallback "doc body" (some "report.pdf") ∧
     businessStrategyRecover "no json content here" = businessStrategyFallback ∧
     financialAnalystRecover "no json content here" = financialAnalystFallback ∧
     ∃ msg, synthesisParse "no json content here" = .error msg) :=
  ⟨rfl, C1_recovery_defaults "doc body" (some "report.pdf") "no json content here" rfl⟩

/-- C5 counterexample: the text consisting of an empty object, prose, and
then a valid object is brace-balanced and contains the valid document
as a substring, yet both recovery tiers fail (the brace-extraction tier
grabs the span from the FIRST opening brace to the LAST closing brace,
which is not itself valid JSON), so recovery falls through to the
default instead of extracting the embedded document. -/
theorem C5_counterexample :
    braceBalanced "\x7b\x7d junk \x7b\"a\":1\x7d" = true ∧
    jsIncludes "\x7b\x7d junk \x7b\"a\":1\x7d" "\x7b\"a\":1\x7d" = true ∧
    parseJson "\x7b\"a\":1\x7d" = some (.obj [("a", .num "1")]) ∧
    recoverJson "\x7b\x7d junk \x7b\"a\":1\x7d" = none := by
  refine ⟨rfl, rfl, rfl, rfl⟩

/-- C5 amended: recovery succeeds exactly on the documents the two tiers
can see — if the strict parse of the fence-stripped text yields `j`, or
the strict parse fails but the substring from the first opening brace to
the last closing brace parses as `j`, then recovery returns `j` rather
than falling through to the default. -/
theorem C5_amended_extraction_succeeds (raw : String) (j : Json)
    (h : parseJson (stripFences raw) = some j ∨
         (parseJson (stripFences raw) = none ∧
          ∃ sub, extractBraces (stripFences raw) = some sub ∧ parseJson sub = some j)) :
    recoverJson raw = some j := by
  rcases h with h1 | ⟨h1, sub, h2, h3⟩
  · simp [recoverJson, h1]
  · simp [recoverJson, h1, h2, h3]

/-- Witness for the amended C5: prose-wrapped JSON recovered by the
brace-extraction tier. -/
theorem C5_amended_extraction_succeeds_witness :
    recoverJson "Sure! \x7b\"a\": 1\x7d Hope this helps." = some (.obj [("a", .num "1")]) :=
  C5_amended_extraction_succeeds "Sure! \x7b\"a\": 1\x7d Hope this helps."
    (.obj [("a", .num "1")]) (Or.inr ⟨rfl, "\x7b\"a\": 1\x7d", rfl, rfl⟩)

end Cognition

namespace Cognition

/-! ### The document-intelligence agent's control flow

`documentIntelligenceAgent.execute` either returns early (no usable
document text) without touching the generation client, or assembles a
user prompt and performs exactly one generation call whose response goes
through the recovery ladder above.  The model captures that first
branching step. -/

/-- Organization profile supplied by the caller (`@shared/schema`). -/
structure OrganizationProfile where
  companyName : String
  industry : String
  coreBusinessGoal : String
  currentPainPoints : String
  dataLandscape : String

/-- The shared context threaded through the pipeline (the
`previousAgentOutputs` map is modelled where the coordinator needs it). -/
structure AgentContext where
  organizationProfile : OrganizationProfile
  documentContent : Option String
  documentName : Option String

/-- A name/value/context metric triple from the document agent. -/
structure MetricT where
  name : String
  value : String
  context : String

/-- The typed `structuredData` payload of the document agent. -/
structure DocumentStructuredData where
  keyFindings : List String
  relevantMetrics : List MetricT
  strategicImplications : List String
  riskFactors : List String
  opportunities : List String

/-- The typed output of the document agent. -/
structure DocumentIntelligenceOutputT where
  agentName : String
  confidence : ℚ
  reasoning : String
  insights : List String
  structuredData : DocumentStructuredData

/-- The early-return output built when no document was provided. -/
def emptyDocumentOutput : DocumentIntelligenceOutputT where
  agentName := "Document Intelligence Agent"
  confidence := 0
  reasoning := "No document was provided for analysis"
  insights := ["No document uploaded - analysis based on form inputs only"]
  structuredData := ⟨[], [], [], [], []⟩

/-- The guard `!context.documentContent || context.documentContent.trim().length === 0`. -/
def docMissing : Option String → Bool
  | none => true
  | some s => (jsTrim s).length == 0

/-- The user prompt the document agent sends when a document is present
(the `getD ""` for the content is unreachable: this branch requires a
present, non-blank document). -/
def documentUserPrompt (ctx : AgentContext) : String :=
  "Analyze this document for " ++ ctx.organizationProfile.companyName ++
  " (" ++ ctx.organizationProfile.industry ++ "):\n\nDOCUMENT NAME: " ++
  jsOrStr ctx.documentName "Uploaded Document" ++
  "\n\nDOCUMENT CONTENT:\n---\n" ++ ctx.documentContent.getD "" ++
  "\n---\n\nORGANIZATION CONTEXT:\n- Company: " ++
  ctx.organizationProfile.companyName ++
  "\n- Industry: " ++ ctx.organizationProfile.industry ++
  "\n- Business Goal: " ++ ctx.organizationProfile.coreBusinessGoal ++
  "\n- Pain Points: " ++ ctx.organizationProfile.currentPainPoints ++
  "\n\nExtract comprehensive intelligence from this document that will inform AI transformation strategy."

/-- What `documentIntelligenceAgent.execute` does before any network
traffic: return early, or issue one generation call with this prompt. -/
inductive DocAgentStep where
  | earlyReturn (out : DocumentIntelligenceOutputT)
  | generate (userPrompt : String)

/-- First step of `documentIntelligenceAgent.execute`. -/
def documentIntelligenceStep (ctx : AgentContext) : DocAgentStep :=
  if docMissing ctx.documentContent then .earlyReturn emptyDocumentOutput
  else .generate (documentUserPrompt ctx)

/-- Number of generation-client calls the document agent makes for a
given context (one per `generate` step, none on the early return). -/
def documentGeneratorCalls (ctx : AgentContext) : Nat :=
  match documentIntelligenceStep ctx with
  | .earlyReturn _ => 0
  | .generate _ => 1

/-- C6: with absent or all-whitespace document content the document
agent returns the zero-confidence output with its explanatory insight and
empty `structuredData` lists, and performs zero generation calls. -/
theorem C6_empty_document_short_circuit (ctx : AgentContext)
    (h : ctx.documentContent = none ∨
         ∃ s, ctx.documentContent = some s ∧ ∀ c ∈ s.toList, c.isWhitespace) :
    documentIntelligenceStep ctx = .earlyReturn emptyDocumentOutput ∧
    documentGeneratorCalls ctx = 0 ∧
    emptyDocumentOutput.confidence = 0 ∧
    emptyDocumentOutput.insights
        = ["No document uploaded - analysis based on form inputs only"] ∧
    emptyDocumentOutput.structuredData.keyFindings = [] ∧
    emptyDocumentOutput.structuredData.relevantMetrics = [] ∧
    emptyDocumentOutput.structuredData.strategicImplications = [] ∧
    emptyDocumentOutput.structuredData.riskFactors = [] ∧
    emptyDocumentOutput.structuredData.opportunities = [] := by
  have hmiss : docMissing ctx.documentContent = true := by
    rcases h with h | ⟨s, hs, hws⟩
    · simp [docMissing, h]
    · have hnil : s.toList.dropWhile Char.isWhitespace = [] :=
        List.dropWhile_eq_nil_iff.mpr (fun c hc => hws c hc)
      have hjt : jsTrim s = "" := by unfold jsTrim; rw [hnil]; rfl
      simp [docMissing, hs, hjt]
  refine ⟨?_, ?_, rfl, rfl, rfl, rfl, rfl, rfl, rfl⟩
  · simp [documentIntelligenceStep, hmiss]
  · simp [documentGeneratorCalls, documentIntelligenceStep, hmiss]

/-- Witness for C6: a three-space document on a concrete profile. -/
theorem C6_empty_document_short_circuit_witness :
    documentIntelligenceStep ⟨⟨"Acme", "Retail", "grow", "cost", "silos"⟩, some "   ", none⟩
        = .earlyReturn emptyDocumentOutput ∧
    documentGeneratorCalls ⟨⟨"Acme", "Retail", "grow", "cost", "silos"⟩, some "   ", none⟩ = 0 ∧
    emptyDocumentOutput.confidence = 0 ∧
    emptyDocumentOutput.insights
        = ["No document uploaded - analysis based on form inputs only"] ∧
    emptyDocumentOutput.structuredData.keyFindings = [] ∧
    emptyDocumentOutput.structuredData.relevantMetrics = [] ∧
    emptyDocumentOutput.structuredData.strategicImplications = [] ∧
    emptyDocumentOutput.structuredData.riskFactors = [] ∧
    emptyDocumentOutput.structuredData.opportunities = [] :=
  C6_empty_document_short_circuit ⟨⟨"Acme", "Retail", "grow", "cost", "silos"⟩, some "   ", none⟩
    (Or.inr ⟨"   ", rfl, by decide⟩)

/-! ### The pipeline coordinator `runAgentCrew`

Agents and the synthesis step perform network I/O, so the coordinator is
modelled over them as parameters; a stage is a function returning
`Except` (a rejected promise is `.error`).  The `previousAgentOutputs`
map, keyed in the source by the three fixed display names, is modelled by
three optional slots. -/

/-- Pipeline context: the shared `AgentContext` plus the output map. -/
structure CrewContext (D S F : Type) where
  base : AgentContext
  docOutput : Option D
  strategyOutput : Option S
  financialOutput : Option F

/-- The context a run starts from (`previousAgentOutputs: {}`). -/
def initialCrewContext (D S F : Type) (profile : OrganizationProfile)
    (documentContent documentName : Option String) : CrewContext D S F :=
  ⟨⟨profile, documentContent, documentName⟩, none, none, none⟩

/-- Context after the document stage wrote its output under its name. -/
def afterDocumentContext (ctx : CrewContext D S F) (d : D) : CrewContext D S F :=
  { ctx with docOutput := some d }

/-- `Promise.all` over two settled outcomes: both must succeed; a
rejection rejects the join (when exactly one stage fails, with that
stage's reason — the only case the claims quantify over). -/
def promiseAll2 (a : Except E α) (b : Except E β) : Except E (α × β) :=
  match a, b with
  | .ok x, .ok y => .ok (x, y)
  | .error e, _ => .error e
  | .ok _, .error e => .error e

/-- The terminal value of the pipeline: the three agent outputs plus the
synthesis triple. -/
structure CrewAnalysisResultT (D S F Y : Type) where
  documentIntelligence : D
  businessStrategy : S
  financialAnalysis : F
  synthesis : Y

/-- The coordinator: document stage first, then the strategy and
financial stages joined, then synthesis over all three outputs. -/
def runAgentCrew (documentAgent : CrewContext D S F → Except E D)
    (strategyAgent : CrewContext D S F → Except E S)
    (financialAgent : CrewContext D S F → Except E F)
    (synthesize : CrewContext D S F → D → S → F → Except E Y)
    (profile : OrganizationProfile)
    (documentContent documentName : Option String) :
    Except E (CrewAnalysisResultT D S F Y) :=
  let ctx0 := initialCrewContext D S F profile documentContent documentName
  match documentAgent ctx0 with
  | .error e => .error e
  | .ok docOutput =>
    let ctx1 := afterDocumentContext ctx0 docOutput
    match promiseAll2 (strategyAgent ctx1) (financialAgent ctx1) with
    | .error e => .error e
    | .ok (strategyOutput, financialOutput) =>
      let ctx2 := { ctx1 with strategyOutput := some strategyOutput,
                              financialOutput := some financialOutput }
      match synthesize ctx2 docOutput strategyOutput financialOutput with
      | .error e => .error e
      | .ok synthesis => .ok ⟨docOutput, strategyOutput, financialOutput, synthesis⟩

/-- C7: if the business-strategy stage rejects while the financial stage
succeeds, the whole run rejects with the strategy failure — no
`CrewAnalysisResult` is produced, and the synthesis stage is never
consulted (the outcome is the same for every possible synthesizer). -/
theorem C7_join_failure_aborts {D S F Y E : Type}
    (documentAgent : CrewContext D S F → Except E D)
    (strategyAgent : CrewContext D S F → Except E S)
    (financialAgent : CrewContext D S F → Except E F)
    (synthesize synthesize' : CrewContext D S F → D → S → F → Except E Y)
    (profile : OrganizationProfile) (documentContent documentName : Option String)
    (d : D) (e : E) (f : F)
    (hdoc : documentAgent (initialCrewContext D S F profile documentContent documentName) = .ok d)
    (hstrat : strategyAgent (afterDocumentContext
        (initialCrewContext D S F profile documentContent documentName) d) = .error e)
    (hfin : financialAgent (afterDocumentContext
        (initialCrewContext D S F profile documentContent documentName) d) = .ok f) :
    runAgentCrew documentAgent strategyAgent financialAgent synthesize
        profile documentContent documentName = .error e ∧
    runAgentCrew documentAgent strategyAgent financialAgent synthesize
        profile documentContent documentName
      = runAgentCrew documentAgent strategyAgent financialAgent synthesize'
        profile documentContent documentName := by
  constructor
  · simp [runAgentCrew, hdoc, hstrat, hfin, promiseAll2]
  · simp [runAgentCrew, hdoc, hstrat, hfin, promiseAll2]

/-- Witness for C7: concrete stages over `Nat` outputs and a `String`
error; the strategy stage rejects with "strategy blew up". -/
theorem C7_join_failure_aborts_witness :
    runAgentCrew (E := String) (Y := Nat)
        (fun (_ : CrewContext Nat Nat Nat) => .ok 1)
        (fun _ => .error "strategy blew up")
        (fun _ => .ok 3) (fun _ _ _ _ => .ok 4)
        ⟨"Acme", "Retail", "grow", "cost", "silos"⟩ none none
      = .error "strategy blew up" ∧
    runAgentCrew (E := String) (Y := Nat)
        (fun (_ : CrewContext Nat Nat Nat) => .ok 1)
        (fun _ => .error "strategy blew up")
        (fun _ => .ok 3) (fun _ _ _ _ => .ok 4)
        ⟨"Acme", "Retail", "grow", "cost", "silos"⟩ none none
      = runAgentCrew (fun _ => .ok 1) (fun _ => .error "strategy blew up")
        (fun _ => .ok 3) (fun _ _ _ _ => .ok 5)
        ⟨"Acme", "Retail", "grow", "cost", "silos"⟩ none none :=
  C7_join_failure_aborts
    (fun (_ : CrewContext Nat Nat Nat) => (.ok 1 : Except String Nat))
    (fun _ => .error "strategy blew up")
    (fun _ => .ok 3) (fun _ _ _ _ => (.ok 4 : Except String Nat)) (fun _ _ _ _ => .ok 5)
    ⟨"Acme", "Retail", "grow", "cost", "silos"⟩ none none 1 "strategy blew up" 3
    rfl rfl rfl

end Cognition

namespace Cognition

/-! ### Generation-client retry policy (`server/anthropic.ts`)

Every wrapper runs its body under `pRetry`: the body catches a service
error, rethrows it bare when it carries a throttling/quota marker (so
`pRetry` retries it with exponential backoff), and wraps it in an
`AbortError` otherwise (so `pRetry` stops at once and rejects with the
original error).  Errors are modelled by their message strings; the
service is a function from the attempt number to that attempt's
outcome. -/

/-- The throttling/quota classifier `isRateLimitError`. -/
def isRateLimitError (msg : String) : Bool :=
  jsIncludes msg "429" ||
  jsIncludes msg "RATELIMIT_EXCEEDED" ||
  jsIncludes (jsToLower msg) "quota" ||
  jsIncludes (jsToLower msg) "rate limit"

/-- The `pRetry` options a wrapper passes: retry ceiling, backoff window
and factor (milliseconds). -/
structure RetryPolicy where
  retries : Nat
  minTimeout : Nat
  maxTimeout : Nat
  factor : Nat

/-- Options of `generateSuggestions`. -/
def generateSuggestionsPolicy : RetryPolicy := ⟨3, 1000, 10000, 2⟩

/-- Options of `generateAnalysis`. -/
def generateAnalysisPolicy : RetryPolicy := ⟨5, 2000, 60000, 2⟩

/-- Options of `applyToneEditor`. -/
def applyToneEditorPolicy : RetryPolicy := ⟨3, 2000, 30000, 2⟩

/-- Backoff slept before retry number `attemptsSoFar + 1`:
`minTimeout * factor^attemptsSoFar`, capped at `maxTimeout`. -/
def backoffDelay (p : RetryPolicy) (attemptsSoFar : Nat) : Nat :=
  min (p.minTimeout * p.factor ^ attemptsSoFar) p.maxTimeout

/-- Outcome of one underlying service attempt. -/
inductive AttemptResult (α : Type) where
  | success (a : α)
  | failure (msg : String)

/-- What a finished `pRetry` run reveals: the settled promise, how many
attempts ran, and the backoff delays slept between them. -/
structure RetryTrace (α : Type) where
  result : Except String α
  attempts : Nat
  delays : List Nat

/-- One `pRetry` execution: try attempt `idx`; success resolves, a
non-throttling failure aborts immediately (the `AbortError` path), a
throttling failure retries after the backoff delay while retry budget
remains. -/
def pRetryRun (p : RetryPolicy) (service : Nat → AttemptResult α) :
    Nat → Nat → RetryTrace α
  | idx, budget =>
    match service idx with
    | .success a => ⟨.ok a, 1, []⟩
    | .failure msg =>
      if isRateLimitError msg then
        match budget with
        | 0 => ⟨.error msg, 1, []⟩
        | Nat.succ b =>
          let t := pRetryRun p service (idx + 1) b
          ⟨t.result, t.attempts + 1, backoffDelay p idx :: t.delays⟩
      else ⟨.error msg, 1, []⟩

/-- `generateSuggestions` run against a given service behaviour. -/
def runGenerateSuggestions (service : Nat → AttemptResult α) : RetryTrace α :=
  pRetryRun generateSuggestionsPolicy service 0 generateSuggestionsPolicy.retries

/-- `generateAnalysis` run against a given service behaviour. -/
def runGenerateAnalysis (service : Nat → AttemptResult α) : RetryTrace α :=
  pRetryRun generateAnalysisPolicy service 0 generateAnalysisPolicy.retries

/-- C8: a first-attempt failure is retried iff its message carries a
throttling/quota marker; a non-marker failure aborts both wrappers after
exactly one attempt with no backoff; a marker failure is retried (a
second attempt resolves the call), and when every attempt fails with a
marker error the suggestions wrapper stops after its 3 retries with
1s/2s/4s backoff and the analysis wrapper after its 5 retries with
2s/4s/8s/16s/32s backoff — factor-2 exponential growth from the 1s
resp. 2s floor, capped by the 10s resp. 60s ceiling. -/
theorem C8_retry_iff_rate_limited (α : Type) (service : Nat → AttemptResult α)
    (msg : String) (hfirst : service 0 = .failure msg) :
    (isRateLimitError msg = false →
      runGenerateSuggestions service = ⟨.error msg, 1, []⟩ ∧
      runGenerateAnalysis service = ⟨.error msg, 1, []⟩) ∧
    (isRateLimitError msg = true → ∀ a, service 1 = .success a →
      runGenerateSuggestions service = ⟨.ok a, 2, [1000]⟩ ∧
      runGenerateAnalysis service = ⟨.ok a, 2, [2000]⟩) ∧
    ((∀ n, service n = .failure msg) → isRateLimitError msg = true →
      runGenerateSuggestions service = ⟨.error msg, 4, [1000, 2000, 4000]⟩ ∧
      runGenerateAnalysis service
        = ⟨.error msg, 6, [2000, 4000, 8000, 16000, 32000]⟩) ∧
    (∀ i, backoffDelay generateSuggestionsPolicy i ≤ 10000 ∧
          backoffDelay generateAnalysisPolicy i ≤ 60000) := by
  refine ⟨?_, ?_, ?_, ?_⟩
  · intro hno
    constructor <;>
      simp [runGenerateSuggestions, runGenerateAnalysis, pRetryRun, hfirst, hno,
            generateSuggestionsPolicy, generateAnalysisPolicy]
  · intro hyes a hsecond
    constructor <;>
      simp [runGenerateSuggestions, runGenerateAnalysis, pRetryRun, hfirst, hsecond,
            hyes, generateSuggestionsPolicy, generateAnalysisPolicy, backoffDelay]
  · intro hall hyes
    constructor <;>
      simp [runGenerateSuggestions, runGenerateAnalysis, pRetryRun,
            hall 0, hall 1, hall 2, hall 3, hall 4, hall 5, hyes,
            generateSuggestionsPolicy, generateAnalysisPolicy, backoffDelay]
  · intro i
    constructor <;> exact Nat.min_le_right _ _

/-- Witness for C8: a service that always answers "429 Too Many
Requests" exhausts 3 retries (4 attempts) at 1s/2s/4s in the suggestions
wrapper and 5 retries (6 attempts) at 2s/4s/8s/16s/32s in the analysis
wrapper. -/
theorem C8_retry_iff_rate_limited_witness :
    runGenerateSuggestions (fun _ => AttemptResult.failure (α := Nat) "429 Too Many Requests")
      = ⟨.error "429 Too Many Requests", 4, [1000, 2000, 4000]⟩ ∧
    runGenerateAnalysis (fun _ => AttemptResult.failure (α := Nat) "429 Too Many Requests")
      = ⟨.error "429 Too Many Requests", 6, [2000, 4000, 8000, 16000, 32000]⟩ :=
  (C8_retry_iff_rate_limited Nat (fun _ => .failure "429 Too Many Requests")
      "429 Too Many Requests" rfl).2.2.1 (fun _ => rfl) rfl

end Cognition

namespace Cognition

/-! ### The result normalizer `convertCrewResultToAnalysis`

Runtime values reaching the normalizer went through unvalidated
`JSON.parse` casts, so every field is modelled as optional; the
defensive `?.`/`||` chains of the source are the `getD`/`jsOr*`
defaults below.  The source reads each agent's payload through one
optional-chaining hop (`result?.X?.structuredData?...`), modelled by one
`Option` per payload. -/

/-- Raw `structuredData` of the document agent as the normalizer sees it. -/
structure RawDocStructuredData where
  keyFindings : Option (List String)
  relevantMetrics : Option (List MetricT)
  strategicImplications : Option (List String)
  riskFactors : Option (List String)
  opportunities : Option (List String)

/-- A raw cognitive node from the strategy agent. -/
structure RawCognitiveNode where
  name : Option String
  description : Option String
  cognitiveLoad : Option String
  dataReadiness : Option String
  agenticPattern : Option String
  automationPotential : Option Int
  documentEvidence : Option String

/-- A raw use case from the financial agent. -/
structure RawUseCase where
  title : Option String
  description : Option String
  horizon : Option String
  currentCost : Option Int
  projectedSavings : Option Int
  implementationCost : Option Int
  trustTaxPercent : Option Int
  lcoai : Option Int
  paybackMonths : Option Int
  documentJustification : Option String

/-- The trust-tax component breakdown. -/
structure TrustTaxBreakdownT where
  humanReview : Int
  errorCorrection : Int
  complianceOverhead : Int
  trainingMaintenance : Int

/-- Raw `structuredData` of the strategy agent (the fields the
normalizer reads). -/
structure RawStrategyData where
  cognitiveNodes : Option (List RawCognitiveNode)

/-- Raw `structuredData` of the financial agent (the fields the
normalizer reads). -/
structure RawFinancialData where
  useCases : Option (List RawUseCase)
  trustTaxBreakdown : Option TrustTaxBreakdownT

/-- The crew result as the normalizer sees it. -/
structure CrewResultRaw where
  docStructuredData : Option RawDocStructuredData
  strategyStructuredData : Option RawStrategyData
  financialStructuredData : Option RawFinancialData
  synthesisExecutiveSummary : Option String

/-- Local `useCases`: `result?.financialAnalysis?.structuredData?.useCases || []`. -/
def getUseCases (r : CrewResultRaw) : List RawUseCase :=
  (r.financialStructuredData.bind RawFinancialData.useCases).getD []

/-- Local `cognitiveNodes`. -/
def getCognitiveNodes (r : CrewResultRaw) : List RawCognitiveNode :=
  (r.strategyStructuredData.bind RawStrategyData.cognitiveNodes).getD []

/-- Local `keyFindings`. -/
def getKeyFindings (r : CrewResultRaw) : List String :=
  (r.docStructuredData.bind RawDocStructuredData.keyFindings).getD []

/-- Local `relevantMetrics`. -/
def getRelevantMetrics (r : CrewResultRaw) : List MetricT :=
  (r.docStructuredData.bind RawDocStructuredData.relevantMetrics).getD []

/-- Local `opportunities`. -/
def getOpportunities (r : CrewResultRaw) : List String :=
  (r.docStructuredData.bind RawDocStructuredData.opportunities).getD []

/-- Local `trustTaxData`, with its hard-coded default breakdown. -/
def getTrustTaxData (r : CrewResultRaw) : TrustTaxBreakdownT :=
  (r.financialStructuredData.bind RawFinancialData.trustTaxBreakdown).getD ⟨20, 10, 5, 5⟩

/-- Local `hasDocument = keyFindings.length > 0`. -/
def hasDocument (r : CrewResultRaw) : Bool :=
  (getKeyFindings r).length > 0

/-- The evidence pool for cognitive nodes: findings then opportunities. -/
def evidencePool (keyFindings opportunities : List String) : List String :=
  keyFindings.map (fun f => "Per document: \"" ++ f ++ "\"") ++
  opportunities.map (fun o => "Document opportunity: " ++ o)

/-- Missing-evidence branch of `injectDocumentEvidence`: `undefined`
without a document, else the pool entry at `nodeIndex mod pool length`. -/
def injectEvidenceMissing (keyFindings opportunities : List String)
    (nodeIndex : Nat) : Option String :=
  if keyFindings.length > 0 then
    let pool := evidencePool keyFindings opportunities
    if pool.length > 0 then
      some (pool.getD (nodeIndex % pool.length) "")
    else some "Analysis based on organizational profile and industry benchmarks"
  else none

/-- Helper `injectDocumentEvidence`: keep a non-blank existing citation,
otherwise back-fill deterministically from the evidence pool. -/
def injectDocumentEvidence (keyFindings opportunities : List String)
    (nodeIndex : Nat) (existingEvidence : Option String) : Option String :=
  match existingEvidence with
  | some e =>
    if (jsTrim e).length > 0 then some e
    else injectEvidenceMissing keyFindings opportunities nodeIndex
  | none => injectEvidenceMissing keyFindings opportunities nodeIndex

/-- The justification pool for use cases: metrics then the first three
findings. -/
def justificationPool (relevantMetrics : List MetricT)
    (keyFindings : List String) : List String :=
  relevantMetrics.map (fun m =>
    "Based on document data: " ++ m.name ++ " = " ++ m.value ++ " (" ++ m.context ++ ")") ++
  (keyFindings.take 3).map (fun f => "Document insight: \"" ++ f ++ "\"")

/-- Missing-justification branch of `injectDocumentJustification`. -/
def injectJustificationMissing (keyFindings : List String)
    (relevantMetrics : List MetricT) (ucIndex : Nat) : Option String :=
  if keyFindings.length > 0 then
    let pool := justificationPool relevantMetrics keyFindings
    if pool.length > 0 then
      some (pool.getD (ucIndex % pool.length) "")
    else some "Industry benchmark estimate - see document for supporting data"
  else none

/-- Helper `injectDocumentJustification`. -/
def injectDocumentJustification (keyFindings : List String)
    (relevantMetrics : List MetricT) (ucIndex : Nat)
    (existingJustification : Option String) : Option String :=
  match existingJustification with
  | some e =>
    if (jsTrim e).length > 0 then some e
    else injectJustificationMissing keyFindings relevantMetrics ucIndex
  | none => injectJustificationMissing keyFindings relevantMetrics ucIndex

/-- A normalized cognitive node. -/
structure OutCognitiveNode where
  name : String
  description : String
  cognitiveLoad : String
  dataReadiness : String
  agenticPattern : String
  automationPotential : Int
  documentEvidence : Option String

/-- A normalized use case. -/
structure OutUseCase where
  title : String
  description : String
  horizon : String
  currentState : String
  aiSolution : String
  expectedOutcome : String
  savingsAmount : Int
  implementationCost : Int
  paybackMonths : Int
  trustTaxPercent : Int
  lcoai : Int
  documentJustification : Option String

/-- Per-horizon counts and summed projected savings. -/
structure HorizonsSummaryT where
  h1Count : Nat
  h2Count : Nat
  h3Count : Nat
  h1Savings : Int
  h2Savings : Int
  h3Savings : Int

/-- The fused result the normalizer returns. -/
structure FusedResult where
  executiveSummary : String
  cognitiveNodes : List OutCognitiveNode
  useCases : List OutUseCase
  trustTaxBreakdown : TrustTaxBreakdownT
  horizonsSummary : HorizonsSummaryT
  documentInsights : Option RawDocStructuredData

/-- The node-mapping lambda of the normalizer (index from `.map`). -/
def convertNode (keyFindings opportunities : List String) (idx : Nat)
    (node : RawCognitiveNode) : OutCognitiveNode where
  name := jsOrStr node.name "Unnamed Node"
  description := jsOrStr node.description ""
  cognitiveLoad := jsOrStr node.cognitiveLoad "medium"
  dataReadiness := jsOrStr node.dataReadiness "medium"
  agenticPattern := jsOrStr node.agenticPattern "orchestrator"
  automationPotential := max 0 (min 100 (jsOrInt node.automationPotential 50))
  documentEvidence := injectDocumentEvidence keyFindings opportunities idx node.documentEvidence

/-- The use-case-mapping lambda of the normalizer. -/
def convertUseCase (keyFindings : List String) (relevantMetrics : List MetricT)
    (idx : Nat) (uc : RawUseCase) : OutUseCase where
  title := jsOrStr uc.title "Unnamed Use Case"
  description := jsOrStr uc.description ""
  horizon := jsOrStr uc.horizon "H1"
  currentState := "Annual cost: $" ++ jsLocaleString (jsOrInt uc.currentCost 0)
  aiSolution := jsOrStr uc.description ""
  expectedOutcome := "$" ++ jsLocaleString (jsOrInt uc.projectedSavings 0) ++ " annual savings"
  savingsAmount := jsOrInt uc.projectedSavings 0
  implementationCost := jsOrInt uc.implementationCost 0
  paybackMonths := jsOrInt uc.paybackMonths 12
  trustTaxPercent := max 0 (min 100 (jsOrInt uc.trustTaxPercent 20))
  lcoai := jsOrInt uc.lcoai 0
  documentJustification :=
    injectDocumentJustification keyFindings relevantMetrics idx uc.documentJustification

/-- Summed `projectedSavings || 0` over a horizon bucket. -/
def sumSavings (l : List RawUseCase) : Int :=
  l.foldl (fun sum u => sum + jsOrInt u.projectedSavings 0) 0

/-- The result normalizer `convertCrewResultToAnalysis`. -/
def convertCrewResultToAnalysis (r : CrewResultRaw) : FusedResult :=
  let useCases := getUseCases r
  let cognitiveNodes := getCognitiveNodes r
  let keyFindings := getKeyFindings r
  let relevantMetrics := getRelevantMetrics r
  let opportunities := getOpportunities r
  let h1Cases := useCases.filter (fun u => u.horizon == some "H1")
  let h2Cases := useCases.filter (fun u => u.horizon == some "H2")
  let h3Cases := useCases.filter (fun u => u.horizon == some "H3")
  { executiveSummary := jsOrStr r.synthesisExecutiveSummary
      "Analysis complete. Please review the detailed findings below."
    cognitiveNodes := cognitiveNodes.enum.map
      (fun p => convertNode keyFindings opportunities p.1 p.2)
    useCases := useCases.enum.map
      (fun p => convertUseCase keyFindings relevantMetrics p.1 p.2)
    trustTaxBreakdown := getTrustTaxData r
    horizonsSummary := ⟨h1Cases.length, h2Cases.length, h3Cases.length,
      sumSavings h1Cases, sumSavings h2Cases, sumSavings h3Cases⟩
    documentInsights := if hasDocument r then r.docStructuredData else none }

end Cognition

namespace Cognition

/-- C2: every cognitive node's `automationPotential` and every use
case's `trustTaxPercent` in the normalizer's output lies within
[0, 100], for every input crew result, however far outside the range the
upstream values are. -/
theorem C2_bounds (r : CrewResultRaw) :
    (∀ n ∈ (convertCrewResultToAnalysis r).cognitiveNodes,
        0 ≤ n.automationPotential ∧ n.automationPotential ≤ 100) ∧
    (∀ u ∈ (convertCrewResultToAnalysis r).useCases,
        0 ≤ u.trustTaxPercent ∧ u.trustTaxPercent ≤ 100) := by
  constructor
  · intro n hn
    simp only [convertCrewResultToAnalysis, List.mem_map] at hn
    obtain ⟨p, -, rfl⟩ := hn
    exact ⟨le_max_left 0 _, max_le (by norm_num) (min_le_left _ _)⟩
  · intro u hu
    simp only [convertCrewResultToAnalysis, List.mem_map] at hu
    obtain ⟨p, -, rfl⟩ := hu
    exact ⟨le_max_left 0 _, max_le (by norm_num) (min_le_left _ _)⟩

/-- A crew result with an automation potential of −500 and a trust tax
of 100000, far outside the documented ranges. -/
def crewC2 : CrewResultRaw where
  docStructuredData := none
  strategyStructuredData := some ⟨some [⟨none, none, none, none, none, some (-500), none⟩]⟩
  financialStructuredData :=
    some ⟨some [⟨none, none, none, none, none, none, some 100000, none, none, none⟩], none⟩
  synthesisExecutiveSummary := none

/-- Witness for C2 at `crewC2`. -/
theorem C2_bounds_witness :
    (0 ≤ (convertNode [] [] 0 ⟨none, none, none, none, none, some (-500), none⟩).automationPotential ∧
     (convertNode [] [] 0 ⟨none, none, none, none, none, some (-500), none⟩).automationPotential ≤ 100) ∧
    (0 ≤ (convertUseCase [] [] 0
            ⟨none, none, none, none, none, none, some 100000, none, none, none⟩).trustTaxPercent ∧
     (convertUseCase [] [] 0
            ⟨none, none, none, none, none, none, some 100000, none, none, none⟩).trustTaxPercent ≤ 100) :=
  ⟨(C2_bounds crewC2).1 _ (List.mem_singleton.mpr rfl),
   (C2_bounds crewC2).2 _ (List.mem_singleton.mpr rfl)⟩

/-- A crew result with the unrecognized horizon tag "X2". -/
def crewC3 : CrewResultRaw where
  docStructuredData := none
  strategyStructuredData := none
  financialStructuredData :=
    some ⟨some [⟨none, none, some "X2", none, none, none, none, none, none, none⟩], none⟩
  synthesisExecutiveSummary := none

/-- C3 counterexample: a use case whose raw horizon tag is the
unrecognized non-empty string "X2" leaves the normalizer with horizon
"X2" — `uc.horizon || "H1"` only replaces absent/empty tags, it does
not validate non-empty ones, so the output is not one of H1/H2/H3. -/
theorem C3_counterexample :
    ((convertCrewResultToAnalysis crewC3).useCases.map OutUseCase.horizon = ["X2"]) ∧
    ("X2" ≠ "H1" ∧ "X2" ≠ "H2" ∧ "X2" ≠ "H3") :=
  ⟨rfl, by decide⟩

/-- C3 amended: each output use case's horizon tag is the input's tag
when present and non-empty, and "H1" when absent or empty; hence the tag
is one of H1/H2/H3 whenever every input tag is absent, empty, or already
one of those three values (an unrecognized non-empty tag passes through
unchanged). -/
theorem C3_amended_horizon_passthrough (r : CrewResultRaw) :
    ((convertCrewResultToAnalysis r).useCases.map OutUseCase.horizon
        = (getUseCases r).map (fun uc => jsOrStr uc.horizon "H1")) ∧
    ((∀ uc ∈ getUseCases r,
        uc.horizon = none ∨ uc.horizon = some "" ∨ uc.horizon = some "H1" ∨
        uc.horizon = some "H2" ∨ uc.horizon = some "H3") →
      ∀ u ∈ (convertCrewResultToAnalysis r).useCases,
        u.horizon = "H1" ∨ u.horizon = "H2" ∨ u.horizon = "H3") := by
  have hmap : (convertCrewResultToAnalysis r).useCases.map OutUseCase.horizon
      = (getUseCases r).map (fun uc => jsOrStr uc.horizon "H1") := by
    simp only [convertCrewResultToAnalysis, List.map_map]
    have : (OutUseCase.horizon ∘ fun p : Nat × RawUseCase =>
        convertUseCase (getKeyFindings r) (getRelevantMetrics r) p.1 p.2)
        = (fun uc => jsOrStr uc.horizon "H1") ∘ Prod.snd := rfl
    rw [this, ← List.map_map, List.enum_map_snd]
  refine ⟨hmap, ?_⟩
  intro h u hu
  have : u.horizon ∈ (convertCrewResultToAnalysis r).useCases.map OutUseCase.horizon :=
    List.mem_map_of_mem _ hu
  rw [hmap] at this
  obtain ⟨uc, huc, heq⟩ := List.mem_map.mp this
  rcases h uc huc with h0 | h0 | h0 | h0 | h0 <;>
    · rw [← heq, h0]
      simp [jsOrStr]

/-- A crew result with the recognized horizon tag "H2". -/
def crewC3W : CrewResultRaw where
  docStructuredData := none
  strategyStructuredData := none
  financialStructuredData :=
    some ⟨some [⟨none, none, some "H2", none, none, none, none, none, none, none⟩], none⟩
  synthesisExecutiveSummary := none

/-- Witness for the amended C3 at `crewC3W`. -/
theorem C3_amended_horizon_passthrough_witness :
    ((convertCrewResultToAnalysis crewC3W).useCases.map OutUseCase.horizon
        = (getUseCases crewC3W).map (fun uc => jsOrStr uc.horizon "H1")) ∧
    ((convertUseCase [] [] 0 ⟨none, none, some "H2", none, none, none, none, none, none, none⟩).horizon = "H1" ∨
     (convertUseCase [] [] 0 ⟨none, none, some "H2", none, none, none, none, none, none, none⟩).horizon = "H2" ∨
     (convertUseCase [] [] 0 ⟨none, none, some "H2", none, none, none, none, none, none, none⟩).horizon = "H3") :=
  ⟨(C3_amended_horizon_passthrough crewC3W).1,
   (C3_amended_horizon_passthrough crewC3W).2 (by decide) _ (List.mem_singleton.mpr rfl)⟩

/-- C4 amended: with two use cases — the first carrying a non-blank
justification, the second carrying none — two relevant metrics, and a
non-empty findings list, the normalizer keeps the existing justification
untouched and back-fills the second use case from the pool entry at its
own index, `1 mod pool length = 1`: the SECOND metric (not the first). -/
theorem C4_amended_backfill_second_metric (r : CrewResultRaw) (u1 u2 : RawUseCase)
    (j : String) (m1 m2 : MetricT)
    (hu : getUseCases r = [u1, u2])
    (hm : getRelevantMetrics r = [m1, m2])
    (hk : getKeyFindings r ≠ [])
    (hj1 : u1.documentJustification = some j)
    (hjt : (jsTrim j).length > 0)
    (hj2 : u2.documentJustification = none) :
    (convertCrewResultToAnalysis r).useCases.map OutUseCase.documentJustification
      = [some j,
         some ("Based on document data: " ++ m2.name ++ " = " ++ m2.value
               ++ " (" ++ m2.context ++ ")")] := by
  have hklen : (getKeyFindings r).length > 0 := List.length_pos.mpr hk
  have hlen : 1 < (justificationPool [m1, m2] (getKeyFindings r)).length := by
    simp only [justificationPool, List.length_append, List.length_map, List.map,
               List.length_cons, List.length_nil]
    omega
  have hmod : 1 % (justificationPool [m1, m2] (getKeyFindings r)).length = 1 :=
    Nat.mod_eq_of_lt hlen
  simp only [convertCrewResultToAnalysis, hu, hm]
  simp only [List.enum, List.map]
  simp [convertUseCase, injectDocumentJustification, hj1, hjt, hj2,
        injectJustificationMissing, hklen, hmod, justificationPool]

/-- The spec's back-fill scenario made concrete: finding "f1", metrics
"Metric One"/"Metric Two", first use case justified, second not. -/
def crewC4 : CrewResultRaw where
  docStructuredData := some ⟨some ["f1"],
    some [⟨"Metric One", "10%", "first"⟩, ⟨"Metric Two", "20%", "second"⟩],
    none, none, none⟩
  strategyStructuredData := none
  financialStructuredData := some ⟨some [
    ⟨some "UC1", none, none, none, none, none, none, none, none, some "From doc page 3"⟩,
    ⟨some "UC2", none, none, none, none, none, none, none, none, none⟩], none⟩
  synthesisExecutiveSummary := none

/-- C4 counterexample: in the two-use-case/two-metric scenario the
missing justification is filled from the second metric — the pool entry
at index 1 — which differs from the pool's index-0 entry (the first
metric) the claim promises. -/
theorem C4_counterexample :
    (convertCrewResultToAnalysis crewC4).useCases.map OutUseCase.documentJustification
      = [some "From doc page 3", some "Based on document data: Metric Two = 20% (second)"] ∧
    ("Based on document data: Metric Two = 20% (second)"
      ≠ "Based on document data: Metric One = 10% (first)") ∧
    (justificationPool (getRelevantMetrics crewC4) (getKeyFindings crewC4)).getD 0 ""
      = "Based on document data: Metric One = 10% (first)" :=
  ⟨rfl, by decide, rfl⟩

/-- Witness for the amended C4 at `crewC4`. -/
theorem C4_amended_backfill_second_metric_witness :
    (convertCrewResultToAnalysis crewC4).useCases.map OutUseCase.documentJustification
      = [some "From doc page 3",
         some ("Based on document data: " ++ "Metric Two" ++ " = " ++ "20%"
               ++ " (" ++ "second" ++ ")")] :=
  C4_amended_backfill_second_metric crewC4
    ⟨some "UC1", none, none, none, none, none, none, none, none, some "From doc page 3"⟩
    ⟨some "UC2", none, none, none, none, none, none, none, none, none⟩
    "From doc page 3" ⟨"Metric One", "10%", "first"⟩ ⟨"Metric Two", "20%", "second"⟩
    rfl rfl (by decide) rfl (by decide) rfl

/-- C9: a bounded numeric field holding exactly 0 is treated as falsy by
the `||` defaulting, so it is replaced by the same nonzero default as an
absent field: automation potential 0 → 50, trust tax 0 → 20, payback
months 0 → 12 — and the whole normalized node/use case is identical to
the one produced from an absent field, making a legitimate zero
indistinguishable from a missing value. -/
theorem C9_zero_indistinguishable (keyFindings opportunities : List String)
    (relevantMetrics : List MetricT) (idx : Nat)
    (n : RawCognitiveNode) (u : RawUseCase) :
    convertNode keyFindings opportunities idx { n with automationPotential := some 0 }
      = convertNode keyFindings opportunities idx { n with automationPotential := none } ∧
    (convertNode keyFindings opportunities idx
        { n with automationPotential := some 0 }).automationPotential = 50 ∧
    convertUseCase keyFindings relevantMetrics idx { u with trustTaxPercent := some 0 }
      = convertUseCase keyFindings relevantMetrics idx { u with trustTaxPercent := none } ∧
    (convertUseCase keyFindings relevantMetrics idx
        { u with trustTaxPercent := some 0 }).trustTaxPercent = 20 ∧
    convertUseCase keyFindings relevantMetrics idx { u with paybackMonths := some 0 }
      = convertUseCase keyFindings relevantMetrics idx { u with paybackMonths := none } ∧
    (convertUseCase keyFindings relevantMetrics idx
        { u with paybackMonths := some 0 }).paybackMonths = 12 := by
  refine ⟨?_, ?_, ?_, ?_, ?_, ?_⟩ <;>
    simp [convertNode, convertUseCase, jsOrInt]

/-- C10: evidence back-fill and the `documentInsights` passthrough are
gated solely on a non-empty `keyFindings` list — with `keyFindings`
empty, `documentInsights` is omitted and nodes/use cases keep exactly
their own non-blank citations (nothing is injected), even when metrics
or opportunities are non-empty. -/
theorem C10_gated_on_keyFindings (r : CrewResultRaw)
    (h : getKeyFindings r = []) :
    (convertCrewResultToAnalysis r).documentInsights = none ∧
    (convertCrewResultToAnalysis r).cognitiveNodes.map OutCognitiveNode.documentEvidence
      = (getCognitiveNodes r).map (fun n =>
          match n.documentEvidence with
          | some e => if (jsTrim e).length > 0 then some e else none
          | none => none) ∧
    (convertCrewResultToAnalysis r).useCases.map OutUseCase.documentJustification
      = (getUseCases r).map (fun u =>
          match u.documentJustification with
          | some e => if (jsTrim e).length > 0 then some e else none
          | none => none) := by
  have hdoc : hasDocument r = false := by simp [hasDocument, h]
  refine ⟨?_, ?_, ?_⟩
  · simp [convertCrewResultToAnalysis, hdoc]
  · simp only [convertCrewResultToAnalysis, List.map_map]
    have hfun : (OutCognitiveNode.documentEvidence ∘ fun p : Nat × RawCognitiveNode =>
        convertNode (getKeyFindings r) (getOpportunities r) p.1 p.2)
        = (fun n : RawCognitiveNode =>
            match n.documentEvidence with
            | some e => if (jsTrim e).length > 0 then some e else none
            | none => none) ∘ Prod.snd := by
      funext p
      cases hp : p.2.documentEvidence <;>
        simp [convertNode, injectDocumentEvidence, injectEvidenceMissing, h, hp]
    rw [hfun, ← List.map_map, List.enum_map_snd]
  · simp only [convertCrewResultToAnalysis, List.map_map]
    have hfun : (OutUseCase.documentJustification ∘ fun p : Nat × RawUseCase =>
        convertUseCase (getKeyFindings r) (getRelevantMetrics r) p.1 p.2)
        = (fun u : RawUseCase =>
            match u.documentJustification with
            | some e => if (jsTrim e).length > 0 then some e else none
            | none => none) ∘ Prod.snd := by
      funext p
      cases hp : p.2.documentJustification <;>
        simp [convertUseCase, injectDocumentJustification, injectJustificationMissing, h, hp]
    rw [hfun, ← List.map_map, List.enum_map_snd]

/-- A crew result with no key findings but a non-empty metric list and a
non-empty opportunity list, one uncited node and one uncited use case. -/
def crewC10 : CrewResultRaw where
  docStructuredData := some ⟨none,
    some [⟨"Margin", "12%", "annual report"⟩], none, none, some ["automate intake"]⟩
  strategyStructuredData := some ⟨some [⟨some "Triage", none, none, none, none, none, none⟩]⟩
  financialStructuredData :=
    some ⟨some [⟨some "UC", none, none, none, none, none, none, none, none, none⟩], none⟩
  synthesisExecutiveSummary := none

/-- Witness for C10 at `crewC10`: nothing is injected and
`documentInsights` is omitted despite non-empty metrics/opportunities. -/
theorem C10_gated_on_keyFindings_witness :
    (convertCrewResultToAnalysis crewC10).documentInsights = none ∧
    (convertCrewResultToAnalysis crewC10).cognitiveNodes.map OutCognitiveNode.documentEvidence
      = [none] ∧
    (convertCrewResultToAnalysis crewC10).useCases.map OutUseCase.documentJustification
      = [none] := by
  have h := C10_gated_on_keyFindings crewC10 rfl
  exact ⟨h.1, h.2.1.trans rfl, h.2.2.trans rfl⟩

end Cognition
